import Mathlib

/-!
Verification of the comparable-sales valuation engine of the RealEstateAI
repository: a shallow embedding of `src/flow/spitogatos_flow.py`,
`src/data_source/spitogatos_data.py` and `src/data_source/geopy_data.py`,
followed by theorems settling the specified behaviour of the adaptive radius
search, the listing source, the statistics block, the valuation normalizer and
the batch enrichment controller.

Numeric modelling: the Python floats are embedded as exact rationals.  Every
constant the claims evaluate (100, 1.5, 0.9, the rank tables, the concrete
examples) is exactly representable and exactly combined in binary floating
point as well, so the embedding agrees with the source on those values.
-/

/-- Geographic point, from `model/geographical_model.py`, class `Point`. -/
structure Point where
  lat : ℚ
  lon : ℚ
deriving DecidableEq, Repr

/-- Bounding rectangle, from `model/geographical_model.py`, class `Rectangle`. -/
structure Rectangle where
  min_lat : ℚ
  min_lon : ℚ
  max_lat : ℚ
  max_lon : ℚ
deriving DecidableEq, Repr

/-- Listing record, from `model/asset_model.py`, class `Asset`.  Optional
fields are `None`-able in the source; the fields the flow never reads
(`address`, `construction_year`, the mutable `revaluated_price_meter` cache)
are omitted, the latter being recomputed functionally below. -/
structure Asset where
  location : Point
  sqm : ℚ
  price : ℚ
  url : Option String := none
  level : Option Int := none
  new_state : Option Bool := none
deriving DecidableEq, Repr

/-- Comparison container, from `model/asset_comparison.py`, class
`AssetComparison`: pydantic validates that `compared_assets` is a list of
`Asset`. -/
structure AssetComparison where
  main_asset : String
  compared_assets : List Asset
deriving DecidableEq, Repr

/-- Embedding of `GeopyData.rectangle_from_point`
(`src/data_source/geopy_data.py`, lines 17-24).  The square root (`math.sqrt`)
and the geodesic destination operation
(`geopy.distance.distance(kilometers=d).destination(point, bearing)`) are
external library calls, abstracted as the parameters `sqrt` and
`dest point distance_km bearing`.  The source performs no validation of
`radius_meters`: any rational radius is accepted and squared. -/
def rectangle_from_point (sqrt : ℚ → ℚ) (dest : Point → ℚ → ℚ → Point)
    (start_point : Point) (radius_meters : ℚ) : Rectangle :=
  let diagonal_meters := sqrt (2 * radius_meters ^ 2)
  let left_up := dest start_point (diagonal_meters / 1000) 45
  let down_bottom := dest start_point (diagonal_meters / 1000) 225
  { min_lat := down_bottom.lat, min_lon := down_bottom.lon,
    max_lat := left_up.lat, max_lon := left_up.lon }

/-- A concrete computable stand-in for the external geodesic destination
operation, used only to evaluate `rectangle_from_point` at concrete inputs. -/
def destFlat (p : Point) (distance_km : ℚ) (bearing : ℚ) : Point :=
  ⟨p.lat + distance_km + bearing, p.lon + distance_km - bearing⟩

/-- One observed outcome of the single HTTP GET issued by
`SpitogatosData.get_by_location`: either an HTTP response carrying a status
code together with the result of parsing `json.loads(response.text)` and
building the `Asset` list (`none` models any exception in that block, caught
by the `except` branch), or a network-level exception raised by `requests`
before a response exists (`aborted` marks `ConnectionAbortedError`, the only
exception type the batch controller catches). -/
inductive Response where
  | http (status : Nat) (parsed : Option (List Asset))
  | netFail (aborted : Bool)
deriving DecidableEq, Repr

/-- The Python exceptions that can propagate in the modelled paths. -/
inductive PyError where
  | typeError
  | validationError
  | connectionAborted
  | netError
deriving DecidableEq, Repr

/-- Value of the Python variable `assets` inside the loop of
`_search_assets_for_row`: `get_by_location` returns a list on success, the
int `-1` when its `except` branch flags a bot block (`is_bot`), and `None`
implicitly when the status code is not 200. -/
inductive AssetsVar where
  | list (l : List Asset)
  | intNeg1
  | pyNone
deriving DecidableEq, Repr

/-- Embedding of `SpitogatosData.get_by_location`
(`src/data_source/spitogatos_data.py`, lines 36-99) applied to the outcome of
its one remote call.  On status 200 the parse either yields the listing
records or raises, in which case `is_bot` is set and the `finally` branch
returns `-1`; on any other status the function logs and falls through,
returning `None`.  A network-level exception from `requests` propagates:
there is no `try` around `session.get` and no retry loop anywhere in the
function. -/
def get_by_location : Response → Except PyError AssetsVar
  | .netFail true => .error .connectionAborted
  | .netFail false => .error .netError
  | .http status parsed =>
    if status = 200 then
      match parsed with
      | some l => .ok (.list l)
      | none => .ok .intNeg1
    else .ok .pyNone

/-- Embedding of the `while i < 3 and len(assets) < 5` loop of
`SpitogatosFlow._search_assets_for_row` (`src/flow/spitogatos_flow.py`,
lines 163-176).  `fuel` is `3 - i`; when the loop variable `assets` holds
`-1` or `None`, evaluating `len(assets)` in the condition raises `TypeError`.
`net t` is the response to the t-th remote call of the run; the rectangle and
area-band request parameters influence the loop only through the response, so
they are absorbed into the oracle `net`.  The body multiplies
`location_tolerance` by 1.5 after each call, so the loop exits carrying the
already-multiplied tolerance.  Returns the loop exit state or the raised
error, paired with the updated call counter. -/
def searchLoop (net : Nat → Response) : Nat → ℚ → AssetsVar → Nat →
    Except PyError (AssetsVar × ℚ) × Nat
  | 0, tol, assets, t => (.ok (assets, tol), t)
  | fuel + 1, tol, assets, t =>
    match assets with
    | .list l =>
      if l.length < 5 then
        match get_by_location (net t) with
        | .error e => (.error e, t + 1)
        | .ok a => searchLoop net fuel (tol * (3 / 2)) a (t + 1)
      else (.ok (assets, tol), t)
    | _ => (.error .typeError, t)

/-- Embedding of `SpitogatosFlow._search_assets_for_row` (lines 151-178).
The asserts at the top hold under the caller's `pd.notna` guard on `sqm`,
`lon` and `lat`.  After the loop the source builds
`AssetComparison(main_asset=row['UniqueCode'], compared_assets=assets)`;
pydantic rejects the construction when `assets` is `-1` or `None`, which is
reachable only when the third call is blocked so that the `i < 3` test
short-circuits `len`.  The returned radius is `location_tolerance / 1.5`,
undoing the final multiplication of the loop body. -/
def search_assets_for_row (net : Nat → Response) (uniqueCode : String)
    (location_tolerance : ℚ) (t : Nat) :
    Except PyError (AssetComparison × ℚ) × Nat :=
  match searchLoop net 3 location_tolerance (.list []) t with
  | (.error e, u) => (.error e, u)
  | (.ok (.list l, tol), u) => (.ok (⟨uniqueCode, l⟩, tol / (3 / 2)), u)
  | (.ok (_, _), u) => (.error .validationError, u)

/-- Arithmetic mean, `statistics.mean`; the source calls it only on non-empty
data. -/
def mean (l : List ℚ) : ℚ := l.sum / l.length

/-- Insertion step of the sort performed inside `statistics.median`. -/
def insertSorted (x : ℚ) : List ℚ → List ℚ
  | [] => [x]
  | y :: ys => if x ≤ y then x :: y :: ys else y :: insertSorted x ys

/-- Sorted copy of the data, as `statistics.median` produces internally.
Insertion sort returns the same value as any sort of rationals. -/
def sortList : List ℚ → List ℚ
  | [] => []
  | x :: xs => insertSorted x (sortList xs)

/-- Embedding of `statistics.median`: the middle element of the sorted data
for odd length, the average of the two middle elements for even length. -/
def median (l : List ℚ) : ℚ :=
  let s := sortList l
  let n := s.length
  if n % 2 = 1 then s.getD (n / 2) 0
  else (s.getD (n / 2 - 1) 0 + s.getD (n / 2) 0) / 2

/-- Python `min` over a list, 0 on empty data (the source guards against
empty data before calling it). -/
def minList : List ℚ → ℚ
  | [] => 0
  | x :: xs => xs.foldl (fun a b => if b < a then b else a) x

/-- Python `max` over a list, 0 on empty data (the source guards against
empty data before calling it). -/
def maxList : List ℚ → ℚ
  | [] => 0
  | x :: xs => xs.foldl (fun a b => if a < b then b else a) x

/-- Sample variance: the square of the value `statistics.stdev` computes,
namely the sum of squared deviations from the mean divided by n - 1. -/
def sampleVariance (l : List ℚ) : ℚ :=
  (l.map (fun x => (x - mean l) ^ 2)).sum / ((l.length : ℚ) - 1)

/-- Embedding of `statistics.stdev`.  The source takes a real square root as
a float; over ℚ we take `Rat.sqrt` of the exact sample variance.  For every
sample, `Rat.sqrt v = 0` exactly when `v = 0` (all prices equal), so the
`std != 0` guard in the flow behaves identically; none of the claims inspects
a non-zero standard-deviation value numerically. -/
def stdev (l : List ℚ) : ℚ := Rat.sqrt (sampleVariance l)

/-- The lookup `floor_rank.get(level, 0.25)` of
`SpitogatosFlow._get_valuation_for_row` (lines 42-51, 61, 66): dict keys
-1..6, default 0.25 for any other or missing level. -/
def floorRankGet (level : Option Int) : ℚ :=
  match level with
  | none => 1 / 4
  | some v =>
    if v = -1 then -2 / 5
    else if v = 0 then -1 / 10
    else if v = 1 then 0
    else if v = 2 then 1 / 20
    else if v = 3 then 1 / 10
    else if v = 4 then 3 / 20
    else if v = 5 then 1 / 5
    else 1 / 4

/-- The lookup `renew_rank.get(new_state, 0)` (lines 52-55, 63, 67): `True`
maps to 0.2, `False` to 0, anything else (missing value) to the default 0. -/
def renewRankGet (new_state : Option Bool) : ℚ :=
  match new_state with
  | some true => 1 / 5
  | _ => 0

/-- Modelled from the spec: `floor_level_dict` from
`utils/consts/greek_tems.py`, a file absent from the sources.  Per the
repository documentation (`utils/parse_excel.py`, `parse_level_column`) it
maps Greek floor labels to numeric levels: Υπόγειο to -1, Ισόγειο to 0,
1ος to 1, and so on; labels it does not know are absent. -/
def floor_level_dict (label : String) : Option Int :=
  if label = "Υπόγειο" then some (-1)
  else if label = "Ισόγειο" then some 0
  else if label = "1ος" then some 1
  else if label = "2ος" then some 2
  else if label = "3ος" then some 3
  else if label = "4ος" then some 4
  else if label = "5ος" then some 5
  else if label = "6ος" then some 6
  else none

/-- Per-comparable adjusted unit price computed inside
`SpitogatosFlow._get_valuation_for_row` (lines 56-63): the asset's
`revaluated_price_meter` after the 0.9 haircut, the floor factor and the
renovation factor are applied to the price per square meter. -/
def revaluated_price_meter (a : Asset) : ℚ :=
  a.price / a.sqm * (9 / 10) * (1 - floorRankGet a.level) * (1 - renewRankGet a.new_state)

/-- Embedding of `SpitogatosFlow._get_valuation_for_row` (lines 33-69).  The
subject row contributes its area, its Greek floor label (resolved through
`floor_level_dict`) and its renovation flag; the asserts of the source hold
for the modelled rows.  Returns `(row_new_price, normalized_mean)`. -/
def get_valuation_for_row (sqm : ℚ) (level : Option String)
    (new_state : Option Bool) (assets : List Asset) : ℚ × ℚ :=
  let normalized_mean := mean (assets.map revaluated_price_meter)
  let row_new_price :=
    normalized_mean * sqm * (1 + floorRankGet (level.bind floor_level_dict))
      * (1 + renewRankGet new_state)
  (row_new_price, normalized_mean)

/-- Subject row of the dataset, with the columns the flow reads and writes.
`Option` models a pandas missing value; `price_sqm` is the `price/sqm`
column that `_prepare_df` computes before the batch starts. -/
structure Row where
  source : String
  portfolio : String
  uniqueCode : String
  sqm : Option ℚ
  lat : Option ℚ
  lon : Option ℚ
  level : Option String := none
  new_state : Option Bool := none
  price_sqm : Option ℚ := none
  enriched_time : Option String := none
  comparison_average : Option ℚ := none
  comparison_min : Option ℚ := none
  comparison_max : Option ℚ := none
  comparison_median : Option ℚ := none
  num_assets : Option ℚ := none
  spitogatos_url : Option String := none
  eauctions_url : Option String := none
  searched_radius : Option ℚ := none
  comparison_std : Option ℚ := none
  score : Option ℚ := none
  revaluation : Option ℚ := none
  normalized_mean : Option ℚ := none
deriving DecidableEq, Repr

/-- The idempotency key built at line 228 of `spitogatos_flow.py`:
the f-string `source:Portfolio:UniqueCode`. -/
def rowKey (r : Row) : String := r.source ++ ":" ++ r.portfolio ++ ":" ++ r.uniqueCode

/-- The skip test of the controller loop (lines 228-231), with the source's
disjunct order: key already seen this run, wrong `Portfolio`, wrong `source`,
or an already-present `enriched_time` stamp. -/
def skipRow (checked : List String) (r : Row) : Bool :=
  checked.contains (rowKey r) || r.portfolio != "scraping_4/1/26"
    || r.source != "ReInvest" || r.enriched_time.isSome

/-- The eauctions reference link written at line 266 of
`spitogatos_flow.py`. -/
def eauctionsUrl (code : String) : String :=
  "https://www.eauction.gr/Home/HlektronikoiPleistiriasmoi?code=" ++ code
    ++ "&sortAsc=true&sortId=1&conductedSubTypeId=1&page=1"

/-- The summary-writing block of `_add_spitogatos_comparison`
(lines 255-277), executed after a successful search: when the comparable list
is non-empty it writes the price-per-sqm statistics, the reference urls and
the radius actually used, then, when more than one comparable exists, the
standard deviation, then, when that is non-zero, the z-score
`(row price/sqm - mean) / std` (a missing subject unit price propagates as a
missing score), and finally the valuation columns. -/
def updateStats (r : Row) (assets : List Asset) (tol : ℚ) : Row :=
  match assets with
  | [] => r
  | a0 :: rest =>
    let prices := (a0 :: rest).map (fun a => a.price / a.sqm)
    let m := mean prices
    let base := { r with
      comparison_average := some m,
      comparison_min := some (minList prices),
      comparison_max := some (maxList prices),
      comparison_median := some (median prices),
      num_assets := some ((a0 :: rest).length : ℚ),
      spitogatos_url := a0.url,
      eauctions_url := some (eauctionsUrl r.uniqueCode),
      searched_radius := some tol }
    let base2 :=
      if 1 < (a0 :: rest).length then
        let s := stdev prices
        let withStd := { base with comparison_std := some s }
        if s ≠ 0 then
          { withStd with score := r.price_sqm.map (fun ps => (ps - m) / s) }
        else withStd
      else base
    let v := get_valuation_for_row (r.sqm.getD 0) r.level r.new_state (a0 :: rest)
    { base2 with revaluation := some v.1, normalized_mean := some v.2 }

/-- Line 280: `df.loc[index, 'enriched_time'] = ` the current timestamp.
This write sits outside the data-presence test, so it runs for every
non-skipped row whose iteration completes. -/
def stampRow (r : Row) (stamp : String) : Row := { r with enriched_time := some stamp }

/-- Outcome of one pass of the controller's for-loop body on one row:
continue to the next row with the updated row, checked keys and call counter;
return the data frame early (the `except ConnectionAbortedError` branch); or
let an exception propagate. -/
inductive StepResult where
  | next (row : Row) (checked : List String) (t : Nat)
  | earlyReturn (row : Row) (t : Nat)
  | raised (e : PyError) (row : Row) (t : Nat)
deriving DecidableEq, Repr

/-- Embedding of one iteration of the loop of
`SpitogatosFlow._add_spitogatos_comparison` (lines 226-280) on a single row.
`stamp` is the timestamp string written to `enriched_time`, `tol0` the
controller's `location_tolerance` argument (default 100).  The
comparison-store save of line 252 writes only the separate comparison
workbook, never the subject dataset. -/
def processRow (net : Nat → Response) (stamp : String) (tol0 : ℚ)
    (checked : List String) (t : Nat) (r : Row) : StepResult :=
  if skipRow checked r then .next r checked t
  else
    let checked1 := checked ++ [rowKey r]
    if r.sqm.isSome && r.lon.isSome && r.lat.isSome then
      match search_assets_for_row net r.uniqueCode tol0 t with
      | (.error .connectionAborted, u) => .earlyReturn r u
      | (.error e, u) => .raised e r u
      | (.ok (cmp, tol), u) =>
        .next (stampRow (updateStats r cmp.compared_assets tol) stamp) checked1 u
    else
      .next (stampRow r stamp) checked1 t

/-- How `_add_spitogatos_comparison` terminates: normal fall-through, the
early `return df` of the `ConnectionAbortedError` branch, or an exception
propagating out to `expand_excel__spitogatos_comparison`. -/
inductive BatchOutcome where
  | finished
  | returnedEarly
  | raised (e : PyError)
deriving DecidableEq, Repr

/-- Embedding of the loop of `_add_spitogatos_comparison` (lines 226-283)
over the remaining rows.  The data frame is mutated in place in the source,
so rows updated before an exception are retained in the returned list even
when the outcome is an error.  Returns the rows after the run, the final
remote-call counter and the outcome. -/
def addLoop (net : Nat → Response) (stamp : String) (tol0 : ℚ) :
    List Row → List String → Nat → List Row × Nat × BatchOutcome
  | [], _, t => ([], t, .finished)
  | r :: rest, checked, t =>
    match processRow net stamp tol0 checked t r with
    | .next r1 checked1 t1 =>
      let res := addLoop net stamp tol0 rest checked1 t1
      (r1 :: res.1, res.2.1, res.2.2)
    | .earlyReturn r1 t1 => (r1 :: rest, t1, .returnedEarly)
    | .raised e r1 t1 => (r1 :: rest, t1, .raised e)

/-- Observable result of one run of
`expand_excel__spitogatos_comparison`: the list of dataset persists performed
on the subject workbook (the `df.to_excel` snapshots, in order), the final
remote-call counter, and the batch outcome. -/
structure ExpandResult where
  persisted : List (List Row)
  calls : Nat
  outcome : BatchOutcome
deriving DecidableEq, Repr

/-- Embedding of `SpitogatosFlow.expand_excel__spitogatos_comparison`
(lines 285-307): it runs `_add_spitogatos_comparison` inside
`try / except Exception / finally`, and whatever happens the `finally` branch
persists the data frame exactly once, in the state the in-place mutations
left it.  No dataset persist happens inside the per-subject loop.  The rows
passed in are taken after `_prepare_df`, whose `price/sqm` column is the
`Row.price_sqm` field. -/
def expand_excel__spitogatos_comparison (net : Nat → Response) (stamp : String)
    (tol0 : ℚ) (df : List Row) : ExpandResult :=
  let res := addLoop net stamp tol0 df [] 0
  ⟨[res.1], res.2.1, res.2.2⟩

/-! Concrete values used by counterexamples and witnesses. -/

/-- A comparable on floor 1, not renovated, with unit price 1000. -/
def exAsset1 : Asset :=
  { location := ⟨38, 23⟩, sqm := 1, price := 1000, level := some 1, new_state := some false }

/-- A comparable with unit price 100; two copies give identical unit prices. -/
def exAssetDup : Asset := { location := ⟨38, 23⟩, sqm := 1, price := 100 }

/-- A comparable with unit price 100. -/
def exAssetA : Asset := { location := ⟨38, 23⟩, sqm := 1, price := 100 }

/-- A comparable with unit price 300. -/
def exAssetB : Asset := { location := ⟨38, 23⟩, sqm := 1, price := 300 }

/-- A subject row that passes the skip filter, with coordinates and area. -/
def exRowFresh : Row :=
  { source := "ReInvest", portfolio := "scraping_4/1/26", uniqueCode := "A1",
    sqm := some 50, lat := some 38, lon := some 23, price_sqm := some 1500 }

/-- A second subject row that passes the skip filter. -/
def exRowFresh2 : Row :=
  { source := "ReInvest", portfolio := "scraping_4/1/26", uniqueCode := "B2",
    sqm := some 60, lat := some 38, lon := some 23, price_sqm := some 1200 }

/-- A subject row already carrying an enrichment stamp. -/
def exRowEnriched : Row :=
  { source := "ReInvest", portfolio := "scraping_4/1/26", uniqueCode := "C3",
    sqm := some 70, lat := some 38, lon := some 23, enriched_time := some "01012026-0000" }

/-- A subject row from another source tag. -/
def exRowForeign : Row :=
  { source := "Altamira", portfolio := "scraping_4/1/26", uniqueCode := "D4",
    sqm := some 80, lat := some 38, lon := some 23 }

/-- A subject row that passes the skip filter but has no area value. -/
def exRowMissing : Row :=
  { source := "ReInvest", portfolio := "scraping_4/1/26", uniqueCode := "E5",
    sqm := none, lat := some 38, lon := some 23 }

/-- Remote oracle: every call succeeds with an empty listing page. -/
def netEmpty : Nat → Response := fun _ => .http 200 (some [])

/-- Remote oracle: every call gets HTTP 403, the session-expiry status. -/
def net403 : Nat → Response := fun _ => .http 403 none

/-- Remote oracle: every call gets a 200 page that fails to parse, the
bot-block shape that makes `get_by_location` return `-1`. -/
def netBlocked : Nat → Response := fun _ => .http 200 none

/-- Remote oracle: three empty successes, then bot-blocked pages. -/
def netEmptyThenBlocked : Nat → Response :=
  fun t => if t < 3 then .http 200 (some []) else .http 200 none

/-! Helper lemmas shared by several claim proofs. -/

/-- A row with an enrichment stamp is skipped whatever was seen this run. -/
theorem skipRow_of_enriched (checked : List String) (r : Row)
    (h : r.enriched_time.isSome) : skipRow checked r = true := by
  simp [skipRow, h]

/-- The controller walks over a prefix of already-stamped rows without
touching them, the checked keys, or the call counter. -/
theorem addLoop_enriched_prefix (net : Nat → Response) (stamp : String) (tol0 : ℚ)
    (pre rest : List Row) (checked : List String) (t : Nat)
    (hpre : ∀ p ∈ pre, p.enriched_time.isSome) :
    addLoop net stamp tol0 (pre ++ rest) checked t
      = (pre ++ (addLoop net stamp tol0 rest checked t).1,
         (addLoop net stamp tol0 rest checked t).2) := by
  induction pre with
  | nil => simp
  | cons p ps ih =>
    have hp : skipRow checked p = true :=
      skipRow_of_enriched checked p (hpre p (List.mem_cons_self p ps))
    have ih2 := ih (fun q hq => hpre q (List.mem_cons_of_mem p hq))
    simp [addLoop, processRow, hp, ih2]

/-- A bot-blocked response at iteration j of the radius loop stops the search
right after that call: no further remote call happens and a TypeError (from
`len` on `-1`, iterations 0 and 1) or a pydantic ValidationError (iteration 2)
propagates. -/
theorem searchBlockedAux (net : Nat → Response) (uc : String) (tol : ℚ) (t j : Nat)
    (hj : j < 3) (hb : net (t + j) = .http 200 none)
    (hprev : ∀ i, i < j → ∃ l : List Asset,
      net (t + i) = .http 200 (some l) ∧ l.length < 5) :
    ∃ e, (e = PyError.typeError ∨ e = PyError.validationError) ∧
      search_assets_for_row net uc tol t = (.error e, t + j + 1) := by
  interval_cases j
  · simp only [Nat.add_zero] at hb
    exact ⟨.typeError, Or.inl rfl,
      by simp [search_assets_for_row, searchLoop, get_by_location, hb]⟩
  · obtain ⟨l0, h0, h0len⟩ := hprev 0 (by omega)
    simp only [Nat.add_zero] at h0
    exact ⟨.typeError, Or.inl rfl,
      by simp [search_assets_for_row, searchLoop, get_by_location, h0, h0len, hb]⟩
  · obtain ⟨l0, h0, h0len⟩ := hprev 0 (by omega)
    obtain ⟨l1, h1, h1len⟩ := hprev 1 (by omega)
    simp only [Nat.add_zero] at h0
    exact ⟨.validationError, Or.inr rfl,
      by simp [search_assets_for_row, searchLoop, get_by_location, h0, h0len, h1, h1len, hb]⟩

/-! Claim theorems. -/

/-- C1: if the listing source returns its Blocked outcome (the `-1` bot
sentinel) at any iteration j of a subject's search, the adaptive radius
search stops right after that call — only j + 1 remote calls are made — and
the blocked condition propagates as an error, the batch controller processes
no further subject (the blocked row and every later row are left exactly as
they were), and the one dataset persist of the `finally` branch still occurs;
the outcome is `raised`, never the zero-comparables path that stamps the row,
so Blocked is never silently treated as an empty result. -/
theorem blocked_halts_batch_and_persists (net : Nat → Response) (stamp : String)
    (pre rest : List Row) (r : Row) (j : Nat)
    (hpre : ∀ p ∈ pre, p.enriched_time.isSome)
    (hskip : skipRow [] r = false)
    (hdata : r.sqm.isSome ∧ r.lon.isSome ∧ r.lat.isSome)
    (hj : j < 3)
    (hblocked : net j = .http 200 none)
    (hprev : ∀ i, i < j → ∃ l : List Asset,
      net i = .http 200 (some l) ∧ l.length < 5) :
    ∃ e, (e = PyError.typeError ∨ e = PyError.validationError) ∧
      search_assets_for_row net r.uniqueCode 100 0 = (.error e, j + 1) ∧
      expand_excel__spitogatos_comparison net stamp 100 (pre ++ r :: rest)
        = ⟨[pre ++ r :: rest], j + 1, .raised e⟩ := by
  obtain ⟨e, hcase, hsearch⟩ := searchBlockedAux net r.uniqueCode 100 0 j hj
    (by simpa using hblocked) (by intro i hi; simpa using hprev i hi)
  rw [Nat.zero_add] at hsearch
  have hd : (r.sqm.isSome && r.lon.isSome && r.lat.isSome) = true := by
    simp [hdata.1, hdata.2.1, hdata.2.2]
  have hproc : processRow net stamp 100 [] 0 r = .raised e r (j + 1) := by
    rw [processRow]
    simp only [hskip, Bool.false_eq_true, if_false, hd, if_true]
    rw [hsearch]
    rcases hcase with rfl | rfl <;> simp
  have haddr : addLoop net stamp 100 (r :: rest) [] 0
      = (r :: rest, j + 1, .raised e) := by
    simp [addLoop, hproc]
  refine ⟨e, hcase, hsearch, ?_⟩
  have hall := addLoop_enriched_prefix net stamp 100 pre (r :: rest) [] 0 hpre
  simp [expand_excel__spitogatos_comparison, hall, haddr]

/-- C1 witness: a concrete run — one already-enriched row, then a subject
whose very first call is bot-blocked, then one more subject — halts with one
remote call, leaves every row untouched in the single persisted dataset. -/
theorem blocked_halts_batch_and_persists_witness :
    (∀ p ∈ [exRowEnriched], p.enriched_time.isSome)
    ∧ skipRow [] exRowFresh = false
    ∧ (exRowFresh.sqm.isSome ∧ exRowFresh.lon.isSome ∧ exRowFresh.lat.isSome)
    ∧ netBlocked 0 = .http 200 none
    ∧ (∃ e, (e = PyError.typeError ∨ e = PyError.validationError) ∧
        search_assets_for_row netBlocked exRowFresh.uniqueCode 100 0 = (.error e, 1) ∧
        expand_excel__spitogatos_comparison netBlocked "01012026-0000" 100
          ([exRowEnriched] ++ exRowFresh :: [exRowFresh2])
          = ⟨[[exRowEnriched] ++ exRowFresh :: [exRowFresh2]], 1, .raised e⟩) := by
  have hpre : ∀ p ∈ [exRowEnriched], p.enriched_time.isSome := by decide
  have hskip : skipRow [] exRowFresh = false := by decide
  have hdata : exRowFresh.sqm.isSome ∧ exRowFresh.lon.isSome ∧ exRowFresh.lat.isSome := by
    decide
  exact ⟨hpre, hskip, hdata, rfl,
    blocked_halts_batch_and_persists netBlocked "01012026-0000" [exRowEnriched]
      [exRowFresh2] exRowFresh 0 hpre hskip hdata (by omega) rfl
      (by intro i hi; exact absurd hi (Nat.not_lt_zero i))⟩

/-- C2 counterexample: on an HTTP 403 response — the session-expiry signal —
`get_by_location` returns `None` after a single attempt, and the search then
raises `TypeError` with the call counter at 1: no delay-and-retry of the same
query ever happens and Blocked is never produced this way, contrary to the
claimed retry budget of 2 additional attempts ending in Blocked. -/
theorem expiry_response_not_retried_counterexample :
    get_by_location (Response.http 403 none) = .ok .pyNone
    ∧ search_assets_for_row net403 "A1" 100 0 = (.error .typeError, 1) := by
  constructor
  · rfl
  · simp [search_assets_for_row, searchLoop, get_by_location, net403]

/-- C2 amended: `get_by_location` performs exactly one remote attempt per
invocation and never retries.  Whenever its one response is not a parsed
listing page — HTTP 401/403 or any non-200 status (returned as `None`), an
unparseable 200 page (returned as the `-1` sentinel), or a network-level
exception — the surrounding search stops after exactly that one attempt with
a propagating exception instead of retrying or returning Blocked after a
retry budget. -/
theorem failed_first_response_raises_after_one_attempt (net : Nat → Response)
    (uc : String) (tol : ℚ) (t : Nat)
    (h : ∀ l : List Asset, get_by_location (net t) ≠ .ok (.list l)) :
    ∃ e, search_assets_for_row net uc tol t = (.error e, t + 1) := by
  match hn : net t with
  | .netFail true =>
    exact ⟨.connectionAborted,
      by simp [search_assets_for_row, searchLoop, get_by_location, hn]⟩
  | .netFail false =>
    exact ⟨.netError, by simp [search_assets_for_row, searchLoop, get_by_location, hn]⟩
  | .http s parsed =>
    by_cases hs : s = 200
    · match parsed with
      | some l => exact absurd (by simp [get_by_location, hn, hs]) (h l)
      | none =>
        exact ⟨.typeError,
          by simp [search_assets_for_row, searchLoop, get_by_location, hn, hs]⟩
    · exact ⟨.typeError,
        by simp [search_assets_for_row, searchLoop, get_by_location, hn, hs]⟩

/-- C2 amended witness: with every response an HTTP 403, the hypothesis holds
and the search stops after exactly one attempt. -/
theorem failed_first_response_raises_after_one_attempt_witness :
    (∀ l : List Asset, get_by_location (net403 0) ≠ .ok (.list l))
    ∧ (∃ e, search_assets_for_row net403 "A1" 100 0 = (.error e, 0 + 1)) := by
  have h : ∀ l : List Asset, get_by_location (net403 0) ≠ .ok (.list l) := by
    intro l hl
    simp [get_by_location, net403] at hl
  exact ⟨h, failed_first_response_raises_after_one_attempt net403 "A1" 100 0 h⟩

/-- C3: under responses that always parse, the adaptive radius search returns
the comparable set of the k-th call (k between 1 and 3) together with exactly
the radius used for that producing call, namely 100 * 1.5 ^ (k - 1) — one of
100, 150, 225, never the next, unused radius — stopping as soon as at least
five comparables are found or the third and last iteration is reached, every
earlier call having returned fewer than five. -/
theorem adaptive_radius_returns_producing_radius (net : Nat → Response) (uc : String)
    (t : Nat) (h : ∀ u, ∃ l : List Asset, net u = .http 200 (some l)) :
    ∃ (k : Nat) (l : List Asset), 1 ≤ k ∧ k ≤ 3 ∧
      net (t + (k - 1)) = .http 200 (some l) ∧
      search_assets_for_row net uc 100 t
        = (.ok (⟨uc, l⟩, 100 * (3 / 2) ^ (k - 1)), t + k) ∧
      (5 ≤ l.length ∨ k = 3) ∧
      (∀ j, j + 1 < k → ∀ m : List Asset,
        net (t + j) = .http 200 (some m) → m.length < 5) := by
  obtain ⟨l0, h0⟩ := h t
  obtain ⟨l1, h1⟩ := h (t + 1)
  obtain ⟨l2, h2⟩ := h (t + 2)
  by_cases c0 : l0.length < 5
  · by_cases c1 : l1.length < 5
    · refine ⟨3, l2, by omega, le_refl 3, by simpa using h2, ?_, Or.inr rfl, ?_⟩
      · simp [search_assets_for_row, searchLoop, get_by_location, h0, c0, h1, c1, h2]
        norm_num
      · intro j hj m hm
        have hj2 : j < 2 := by omega
        interval_cases j
        · simp only [Nat.add_zero] at hm
          have hml : some m = some l0 := by
            have := h0.symm.trans hm
            simpa [Response.http.injEq] using this.symm
          rw [Option.some.injEq] at hml
          rw [hml]; exact c0
        · have hml : some m = some l1 := by
            have := h1.symm.trans hm
            simpa [Response.http.injEq] using this.symm
          rw [Option.some.injEq] at hml
          rw [hml]; exact c1
    · refine ⟨2, l1, by omega, by omega, by simpa using h1, ?_, Or.inl (by omega), ?_⟩
      · simp [search_assets_for_row, searchLoop, get_by_location, h0, c0, h1, c1]
      · intro j hj m hm
        have hj0 : j = 0 := by omega
        subst hj0
        simp only [Nat.add_zero] at hm
        have hml : some m = some l0 := by
          have := h0.symm.trans hm
          simpa [Response.http.injEq] using this.symm
        rw [Option.some.injEq] at hml
        rw [hml]; exact c0
  · refine ⟨1, l0, le_refl 1, by omega, by simpa using h0, ?_, Or.inl (by omega), ?_⟩
    · simp [search_assets_for_row, searchLoop, get_by_location, h0, c0]
    · intro j hj m hm
      omega

/-- C3 witness: with every call returning an empty listing page, the search
runs all three iterations and returns the set of the third call together with
the radius 225 used by that call. -/
theorem adaptive_radius_returns_producing_radius_witness :
    (∀ u, ∃ l : List Asset, netEmpty u = .http 200 (some l))
    ∧ (∃ (k : Nat) (l : List Asset), 1 ≤ k ∧ k ≤ 3 ∧
        netEmpty (0 + (k - 1)) = .http 200 (some l) ∧
        search_assets_for_row netEmpty "A1" 100 0
          = (.ok (⟨"A1", l⟩, 100 * (3 / 2) ^ (k - 1)), 0 + k) ∧
        (5 ≤ l.length ∨ k = 3) ∧
        (∀ j, j + 1 < k → ∀ m : List Asset,
          netEmpty (0 + j) = .http 200 (some m) → m.length < 5)) := by
  have h : ∀ u, ∃ l : List Asset, netEmpty u = .http 200 (some l) := fun u => ⟨[], rfl⟩
  exact ⟨h, adaptive_radius_returns_producing_radius netEmpty "A1" 0 h⟩

/-- C4: each comparable's adjusted unit price is
unit price * 0.9 * (1 - floor rank) * (1 - renovation rank); the subject's
estimated value is the normalized mean times the subject's area times
(1 + floor rank) times (1 + renovation rank); a not-renovated floor-1
comparable with unit price 1000 adjusts to 900, and a subject of area 50 on
floor 3, renovated, whose comparables normalize to mean 900, is estimated
at 59400. -/
theorem valuation_formula_spec :
    (∀ a : Asset, revaluated_price_meter a
      = a.price / a.sqm * (9 / 10) * (1 - floorRankGet a.level)
          * (1 - renewRankGet a.new_state))
    ∧ (∀ (sqm : ℚ) (level : Option String) (ns : Option Bool) (assets : List Asset),
        (get_valuation_for_row sqm level ns assets).1
          = (get_valuation_for_row sqm level ns assets).2 * sqm
              * (1 + floorRankGet (level.bind floor_level_dict)) * (1 + renewRankGet ns))
    ∧ revaluated_price_meter exAsset1 = 900
    ∧ get_valuation_for_row 50 (some "3ος") (some true) [exAsset1] = (59400, 900) := by
  refine ⟨fun a => rfl, fun sqm level ns assets => rfl, ?_, ?_⟩
  · norm_num [revaluated_price_meter, exAsset1, floorRankGet, renewRankGet]
  · have h3 : (some "3ος").bind floor_level_dict = some 3 := by decide
    norm_num [get_valuation_for_row, mean, revaluated_price_meter, exAsset1,
      floorRankGet, renewRankGet, h3]

/-- C5 counterexample: a comparable set of two identical unit prices has
sample standard deviation 0, yet the flow writes `comparison_std` (as 0) —
the claim that the standard deviation is absent when it is zero fails; only
the z-score is guarded, so it stays absent and no division by zero occurs. -/
theorem std_written_when_zero_counterexample :
    (updateStats exRowFresh [exAssetDup, exAssetDup] 100).comparison_std = some 0
    ∧ (updateStats exRowFresh [exAssetDup, exAssetDup] 100).score = none := by
  norm_num [updateStats, exAssetDup, exRowFresh, stdev, sampleVariance, mean, Rat.sqrt]

/-- C5 amended: on a fresh row, mean, median, min and max are written exactly
when at least one comparable exists; the standard deviation is written exactly
when at least two exist, including when it is zero; the z-score is written
exactly when at least two exist, the standard deviation is non-zero and the
subject's own unit price is present — so identical unit prices never cause a
division-by-zero fault, the score simply stays absent. -/
theorem stats_presence_conditions (r : Row) (assets : List Asset) (tol : ℚ)
    (hfresh : r.comparison_average = none ∧ r.comparison_median = none ∧
      r.comparison_min = none ∧ r.comparison_max = none ∧
      r.comparison_std = none ∧ r.score = none) :
    ((updateStats r assets tol).comparison_average.isSome ∧
       (updateStats r assets tol).comparison_median.isSome ∧
       (updateStats r assets tol).comparison_min.isSome ∧
       (updateStats r assets tol).comparison_max.isSome ↔ 1 ≤ assets.length)
    ∧ ((updateStats r assets tol).comparison_std.isSome ↔ 2 ≤ assets.length)
    ∧ ((updateStats r assets tol).score.isSome ↔
        2 ≤ assets.length ∧ stdev (assets.map (fun a => a.price / a.sqm)) ≠ 0
          ∧ r.price_sqm.isSome) := by
  obtain ⟨h1, h2, h3, h4, h5, h6⟩ := hfresh
  match assets with
  | [] => simp [updateStats, h1, h2, h3, h4, h5, h6]
  | [a0] => simp [updateStats, h5, h6]
  | a0 :: a1 :: rest =>
    by_cases hs : stdev (a0.price / a0.sqm :: a1.price / a1.sqm ::
        rest.map (fun a => a.price / a.sqm)) = 0
    · simp [updateStats, hs, h6]
    · simp [updateStats, hs, Option.isSome_map]

/-- C5 amended witness: a fresh row with two comparables of distinct unit
prices satisfies the freshness hypothesis and the presence conditions. -/
theorem stats_presence_conditions_witness :
    (exRowFresh.comparison_average = none ∧ exRowFresh.comparison_median = none ∧
      exRowFresh.comparison_min = none ∧ exRowFresh.comparison_max = none ∧
      exRowFresh.comparison_std = none ∧ exRowFresh.score = none)
    ∧ (((updateStats exRowFresh [exAssetA, exAssetB] 100).comparison_average.isSome ∧
         (updateStats exRowFresh [exAssetA, exAssetB] 100).comparison_median.isSome ∧
         (updateStats exRowFresh [exAssetA, exAssetB] 100).comparison_min.isSome ∧
         (updateStats exRowFresh [exAssetA, exAssetB] 100).comparison_max.isSome ↔
           1 ≤ ([exAssetA, exAssetB] : List Asset).length)
       ∧ ((updateStats exRowFresh [exAssetA, exAssetB] 100).comparison_std.isSome ↔
           2 ≤ ([exAssetA, exAssetB] : List Asset).length)
       ∧ ((updateStats exRowFresh [exAssetA, exAssetB] 100).score.isSome ↔
           2 ≤ ([exAssetA, exAssetB] : List Asset).length ∧
             stdev (([exAssetA, exAssetB] : List Asset).map (fun a => a.price / a.sqm)) ≠ 0
             ∧ exRowFresh.price_sqm.isSome)) := by
  have h : exRowFresh.comparison_average = none ∧ exRowFresh.comparison_median = none ∧
      exRowFresh.comparison_min = none ∧ exRowFresh.comparison_max = none ∧
      exRowFresh.comparison_std = none ∧ exRowFresh.score = none :=
    ⟨rfl, rfl, rfl, rfl, rfl, rfl⟩
  exact ⟨h, stats_presence_conditions exRowFresh [exAssetA, exAssetB] 100 h⟩

/-- C6 counterexample: a batch over one subject that completes normally — the
subject is actually processed, making three remote calls — performs exactly
one dataset persist, not the two (after the subject, and at exit) the claim
requires. -/
theorem single_dataset_persist_counterexample :
    (expand_excel__spitogatos_comparison netEmpty "01012026-0000" 100
        [exRowFresh]).persisted.length = 1
    ∧ (expand_excel__spitogatos_comparison netEmpty "01012026-0000" 100
        [exRowFresh]).outcome = .finished
    ∧ (expand_excel__spitogatos_comparison netEmpty "01012026-0000" 100
        [exRowFresh]).calls = 3 := by
  refine ⟨rfl, ?_, ?_⟩ <;>
    simp [expand_excel__spitogatos_comparison, addLoop, processRow, skipRow, exRowFresh,
      search_assets_for_row, searchLoop, get_by_location, netEmpty, updateStats, rowKey]

/-- C6 amended: the dataset is persisted exactly once, at batch exit, whether
the run finishes or raises — there is no per-subject dataset persist, the
per-subject save touching only the separate comparison workbook — and when
processing raises on a subject, the one persisted dataset contains the
completed summaries of the subjects processed before it and no change to that
subject or any later one. -/
theorem persist_once_at_exit_preserves_completed (net : Nat → Response) (stamp : String)
    (tol0 : ℚ) (r1 r2 : Row) (rest : List Row) (r1a : Row) (c1 : List String)
    (t1 : Nat) (e : PyError)
    (h1 : processRow net stamp tol0 [] 0 r1 = .next r1a c1 t1)
    (h2 : skipRow c1 r2 = false)
    (h3 : r2.sqm.isSome ∧ r2.lon.isSome ∧ r2.lat.isSome)
    (h4 : (search_assets_for_row net r2.uniqueCode tol0 t1).1 = .error e)
    (h5 : e ≠ .connectionAborted) :
    expand_excel__spitogatos_comparison net stamp tol0 (r1 :: r2 :: rest)
      = ⟨[r1a :: r2 :: rest],
          (search_assets_for_row net r2.uniqueCode tol0 t1).2, .raised e⟩ := by
  rcases hs : search_assets_for_row net r2.uniqueCode tol0 t1 with ⟨res, u⟩
  rw [hs] at h4
  simp only at h4
  subst h4
  have hd : (r2.sqm.isSome && r2.lon.isSome && r2.lat.isSome) = true := by
    simp [h3.1, h3.2.1, h3.2.2]
  have hproc2 : processRow net stamp tol0 c1 t1 r2 = .raised e r2 u := by
    rw [processRow]
    simp only [h2, Bool.false_eq_true, if_false, hd, if_true]
    rw [hs]
    cases e with
    | connectionAborted => exact absurd rfl h5
    | typeError => rfl
    | validationError => rfl
    | netError => rfl
  simp [expand_excel__spitogatos_comparison, addLoop, h1, hproc2, hs]

/-- C6 amended witness: a concrete two-subject batch in which the first
subject completes (three empty-success calls, stamped) and the second hits a
bot block: the single persisted dataset keeps the first subject's completed
row and leaves the second untouched. -/
theorem persist_once_at_exit_preserves_completed_witness :
    (processRow netEmptyThenBlocked "01012026-0000" 100 [] 0 exRowFresh
        = .next (stampRow exRowFresh "01012026-0000") [rowKey exRowFresh] 3)
    ∧ skipRow [rowKey exRowFresh] exRowFresh2 = false
    ∧ (exRowFresh2.sqm.isSome ∧ exRowFresh2.lon.isSome ∧ exRowFresh2.lat.isSome)
    ∧ (search_assets_for_row netEmptyThenBlocked exRowFresh2.uniqueCode 100 3).1
        = .error .typeError
    ∧ PyError.typeError ≠ PyError.connectionAborted
    ∧ expand_excel__spitogatos_comparison netEmptyThenBlocked "01012026-0000" 100
        [exRowFresh, exRowFresh2]
      = ⟨[[stampRow exRowFresh "01012026-0000", exRowFresh2]],
          (search_assets_for_row netEmptyThenBlocked exRowFresh2.uniqueCode 100 3).2,
          .raised .typeError⟩ := by
  have h1 : processRow netEmptyThenBlocked "01012026-0000" 100 [] 0 exRowFresh
      = .next (stampRow exRowFresh "01012026-0000") [rowKey exRowFresh] 3 := by
    simp [processRow, skipRow, exRowFresh, search_assets_for_row, searchLoop,
      get_by_location, netEmptyThenBlocked, updateStats, rowKey, stampRow]
  have h2 : skipRow [rowKey exRowFresh] exRowFresh2 = false := by decide
  have h3 : exRowFresh2.sqm.isSome ∧ exRowFresh2.lon.isSome ∧ exRowFresh2.lat.isSome := by
    decide
  have h4 : (search_assets_for_row netEmptyThenBlocked exRowFresh2.uniqueCode 100 3).1
      = .error .typeError := by
    simp [search_assets_for_row, searchLoop, get_by_location, netEmptyThenBlocked]
  have h5 : PyError.typeError ≠ PyError.connectionAborted := by decide
  exact ⟨h1, h2, h3, h4, h5,
    persist_once_at_exit_preserves_completed netEmptyThenBlocked "01012026-0000" 100
      exRowFresh exRowFresh2 [] (stampRow exRowFresh "01012026-0000")
      [rowKey exRowFresh] 3 .typeError h1 h2 h3 h4 h5⟩

/-- C7: over a dataset in which every subject already carries an enrichment
stamp, the controller loop performs zero remote calls (the call counter is
returned unchanged) and returns the dataset unchanged, for any starting
checked set and counter; the whole run persists exactly that unchanged
dataset. -/
theorem enriched_dataset_skipped_unchanged (net : Nat → Response) (stamp : String)
    (tol0 : ℚ) (df : List Row) (h : ∀ r ∈ df, r.enriched_time.isSome) :
    (∀ checked t, addLoop net stamp tol0 df checked t = (df, t, .finished))
    ∧ expand_excel__spitogatos_comparison net stamp tol0 df
        = ⟨[df], 0, .finished⟩ := by
  have key : ∀ checked t, addLoop net stamp tol0 df checked t = (df, t, .finished) := by
    intro checked t
    have := addLoop_enriched_prefix net stamp tol0 df [] checked t h
    simpa [addLoop] using this
  exact ⟨key, by simp [expand_excel__spitogatos_comparison, key [] 0]⟩

/-- C7 witness: a one-row dataset whose subject is already stamped passes
through unchanged with the counter untouched. -/
theorem enriched_dataset_skipped_unchanged_witness :
    (∀ r ∈ [exRowEnriched], r.enriched_time.isSome)
    ∧ ((∀ checked t, addLoop netEmpty "01012026-0000" 100 [exRowEnriched] checked t
          = ([exRowEnriched], t, .finished))
       ∧ expand_excel__spitogatos_comparison netEmpty "01012026-0000" 100 [exRowEnriched]
          = ⟨[[exRowEnriched]], 0, .finished⟩) := by
  have h : ∀ r ∈ [exRowEnriched], r.enriched_time.isSome := by decide
  exact ⟨h, enriched_dataset_skipped_unchanged netEmpty "01012026-0000" 100
    [exRowEnriched] h⟩

/-- C9: a row whose source is not ReInvest or whose Portfolio is not the
current scraping tag is skipped outright: no remote call is made, the row,
the checked keys and the call counter are all returned unchanged, whatever
the row's enrichment timestamp. -/
theorem foreign_rows_left_untouched (net : Nat → Response) (stamp : String) (tol0 : ℚ)
    (checked : List String) (t : Nat) (r : Row)
    (h : r.source ≠ "ReInvest" ∨ r.portfolio ≠ "scraping_4/1/26") :
    processRow net stamp tol0 checked t r = .next r checked t := by
  have hs : skipRow checked r = true := by
    rcases h with h | h <;> simp [skipRow, h]
  simp [processRow, hs]

/-- C9 witness: a never-enriched row with source Altamira is skipped without
any call or write. -/
theorem foreign_rows_left_untouched_witness :
    (exRowForeign.source ≠ "ReInvest" ∨ exRowForeign.portfolio ≠ "scraping_4/1/26")
    ∧ processRow netEmpty "01012026-0000" 100 [] 0 exRowForeign
        = .next exRowForeign [] 0 := by
  have h : exRowForeign.source ≠ "ReInvest" ∨ exRowForeign.portfolio ≠ "scraping_4/1/26" :=
    Or.inl (by decide)
  exact ⟨h, foreign_rows_left_untouched netEmpty "01012026-0000" 100 [] 0 exRowForeign h⟩

/-- C10: every row passing the skip filter whose iteration completes with
`next` ends it stamped with `enriched_time`, and is therefore skipped under
any checked set in every later run; in particular a passing row with a missing
sqm, lat or lon value performs no remote call, has no summary field written,
and is exactly its stamped self. -/
theorem passing_rows_always_stamped (net : Nat → Response) (stamp : String) (tol0 : ℚ)
    (checked : List String) (t : Nat) (r : Row)
    (hskip : skipRow checked r = false) :
    (∀ r1 c1 t1, processRow net stamp tol0 checked t r = .next r1 c1 t1 →
        r1.enriched_time = some stamp ∧ ∀ c2, skipRow c2 r1 = true)
    ∧ ((r.sqm = none ∨ r.lon = none ∨ r.lat = none) →
        processRow net stamp tol0 checked t r
          = .next (stampRow r stamp) (checked ++ [rowKey r]) t) := by
  constructor
  · intro r1 c1 t1 hp
    have he : r1.enriched_time = some stamp := by
      simp only [processRow, hskip, Bool.false_eq_true, if_false] at hp
      split at hp
      · split at hp
        · exact absurd hp (by simp)
        · exact absurd hp (by simp)
        · rw [StepResult.next.injEq] at hp
          rw [← hp.1]
          simp [stampRow]
      · rw [StepResult.next.injEq] at hp
        rw [← hp.1]
        simp [stampRow]
    exact ⟨he, fun c2 => by simp [skipRow, he]⟩
  · intro hmiss
    have hd : (r.sqm.isSome && r.lon.isSome && r.lat.isSome) = false := by
      rcases hmiss with h | h | h <;> simp [h]
    simp [processRow, hskip, hd]

/-- C10 witness: a passing row with a missing area is stamped without any
remote call or summary write, and every later run skips it. -/
theorem passing_rows_always_stamped_witness :
    skipRow [] exRowMissing = false
    ∧ ((∀ r1 c1 t1, processRow netEmpty "01012026-0000" 100 [] 0 exRowMissing
          = .next r1 c1 t1 →
          r1.enriched_time = some "01012026-0000" ∧ ∀ c2, skipRow c2 r1 = true)
       ∧ ((exRowMissing.sqm = none ∨ exRowMissing.lon = none ∨ exRowMissing.lat = none) →
          processRow netEmpty "01012026-0000" 100 [] 0 exRowMissing
            = .next (stampRow exRowMissing "01012026-0000")
                ([] ++ [rowKey exRowMissing]) 0)) := by
  have h : skipRow [] exRowMissing = false := by decide
  exact ⟨h, passing_rows_always_stamped netEmpty "01012026-0000" 100 [] 0 exRowMissing h⟩

/-- C8 counterexample: with a negative radius of -100 metres,
`rectangle_from_point` raises nothing and computes a rectangle — the very
rectangle it computes for +100, since the radius is squared — instead of
failing with InvalidArgument; the corners are genuine offsets from the
center. -/
theorem negative_radius_computes_rectangle_counterexample :
    rectangle_from_point Rat.sqrt destFlat ⟨38, 23⟩ (-100)
      = rectangle_from_point Rat.sqrt destFlat ⟨38, 23⟩ 100
    ∧ rectangle_from_point Rat.sqrt destFlat ⟨38, 23⟩ (-100)
      = ⟨38 + Rat.sqrt 20000 / 1000 + 225, 23 + Rat.sqrt 20000 / 1000 - 225,
         38 + Rat.sqrt 20000 / 1000 + 45, 23 + Rat.sqrt 20000 / 1000 - 45⟩ := by
  constructor <;> norm_num [rectangle_from_point, destFlat]

/-- C8 amended: `rectangle_from_point` performs no validation of its radius:
for every radius, every square-root model and every destination model it
returns a rectangle, and the radius enters only through its square, so a
non-positive radius is accepted and -r produces exactly the rectangle of r
(radius 0 included, giving the degenerate rectangle at distance 0). -/
theorem rectangle_ignores_radius_sign (sqrt : ℚ → ℚ) (dest : Point → ℚ → ℚ → Point)
    (p : Point) (radius : ℚ) :
    rectangle_from_point sqrt dest p (-radius) = rectangle_from_point sqrt dest p radius := by
  simp [rectangle_from_point, neg_sq]
